import Mathlib

/-!
Verification of the reconciliation core of `google_drive_manager/drive_api.py`:
the retry decorator `retry_on_transient`, the remote-store operations
(`list_files`, `upload_file`, `update_file`, `create_folder`, `delete_file`),
the name lookup `find_file_by_name`, the per-file reconciler
`upsert_file_by_path`, and the folder traversal `sync_folder`.

The embedding is a shallow one: Python exceptions become an explicit
`Except PyExc` result, the Google Drive service is an abstract record of
response functions, the local filesystem is a record of predicates, remote
invocations are recorded in an explicit trace, and the retry loop is a
fuel-structured recursion whose fuel equals the remaining attempt budget
(the Python loop condition `attempt < max_attempts` corresponds to
`fuel > 0` under the invariant `fuel = max_attempts - attempt`).
-/

deriving instance DecidableEq for Except

namespace DriveManager

/-- A Python exception value: a type name and message, optionally chained to a
cause (modelling `raise e from cause`). -/
inductive PyExc where
  | exc (ty msg : String)
  | excFrom (ty msg : String) (cause : PyExc)
deriving DecidableEq, Repr

/-- Remote file metadata as returned by the Drive v3 API
(`fields="id,name,mimeType,parents,modifiedTime"`). -/
structure FileMeta where
  id : String
  name : String
  mimeType : String
  parents : List String
  modifiedTime : String
deriving DecidableEq, Repr

/-- One remote API invocation, as recorded in the call trace:
`files().list`, `files().create` (file or folder), `files().update`,
`files().delete`. -/
inductive RemoteCall where
  | list (q : Option String)
  | create (name : String) (parent : Option String)
  | update (fileId : String)
  | createFolder (name : String) (parent : Option String)
  | delete (fileId : String)
deriving DecidableEq, Repr

/-- The Drive service handle: deterministic responses for each raw operation.
`listResp` takes the query and page size. -/
structure Service where
  listResp : Option String → Nat → Except PyExc (List FileMeta)
  createResp : String → Option String → Except PyExc FileMeta
  updateResp : String → Except PyExc FileMeta
  deleteResp : String → Except PyExc Unit

/-- The local filesystem as seen by the code: existence and directory tests
plus recursive globbing (`Path.rglob`), which lists all paths under a
directory (files and subdirectories, unsorted: the code sorts them). -/
structure LocalFS where
  pathExists : String → Bool
  isDir : String → Bool
  rglob : String → List String

/-- Parameters of the `retry_on_transient` decorator. -/
structure RetryConfig where
  maxAttempts : Nat
  initialBackoff : ℚ
  multiplier : ℚ
  maxBackoff : ℚ
  jitter : Bool

/-- The decorator's defaults: `max_attempts=6, initial_backoff=1.0,
multiplier=2.0, max_backoff=60.0, jitter=True`. -/
def defaultRetryConfig : RetryConfig :=
  { maxAttempts := 6, initialBackoff := 1, multiplier := 2, maxBackoff := 60, jitter := true }

/-- Outcome of running a retry-wrapped operation: final result, the number of
times the body was called, the pre-jitter backoff value recorded at each
sleep (in order), and the accumulated remote-call trace. -/
structure RetryTrace (α : Type) where
  result : Except PyExc α
  calls : Nat
  sleeps : List ℚ
  remote : List RemoteCall

/-- The `DriveAPIError` raised when the retry loop exhausts its budget:
`raise DriveAPIError(f"Function {fn.__name__} failed after {attempt} attempts") from last_exc`. -/
def exhaustedExc (fname : String) (attempt : Nat) (lastExc : Option PyExc) : PyExc :=
  let msg := "Function " ++ fname ++ " failed after " ++ toString attempt ++ " attempts"
  match lastExc with
  | none => PyExc.exc "DriveAPIError" msg
  | some c => PyExc.excFrom "DriveAPIError" msg c

/-- The retry loop of `retry_on_transient`.  `body n` is the wrapped
function's behaviour on its n-th call (result plus remote calls it made).
Fuel is the remaining attempt budget, `attempt` the count so far,
`backoff` the current pre-jitter backoff.  On each failed attempt with
budget remaining, the current backoff is recorded as the sleep value and
then updated to `min(backoff * multiplier, max_backoff)`. -/
def retryGo (cfg : RetryConfig) (fname : String)
    (body : Nat → Except PyExc α × List RemoteCall) :
    Nat → Nat → ℚ → Option PyExc → List ℚ → List RemoteCall → RetryTrace α
  | 0, attempt, _, lastExc, sl, rm =>
    { result := Except.error (exhaustedExc fname attempt lastExc),
      calls := attempt, sleeps := sl, remote := rm }
  | fuel + 1, attempt, backoff, _, sl, rm =>
    match body (attempt + 1) with
    | (Except.ok v, rc) =>
      { result := Except.ok v, calls := attempt + 1, sleeps := sl, remote := rm ++ rc }
    | (Except.error e, rc) =>
      if fuel = 0 then
        { result := Except.error (exhaustedExc fname (attempt + 1) (some e)),
          calls := attempt + 1, sleeps := sl, remote := rm ++ rc }
      else
        retryGo cfg fname body fuel (attempt + 1)
          (min (backoff * cfg.multiplier) cfg.maxBackoff) (some e)
          (sl ++ [backoff]) (rm ++ rc)

/-- `retry_on_transient(cfg)(fn)` applied to a call: run the loop with the
full budget, attempt counter 0, backoff `initial_backoff`, no last
exception. -/
def retryOnTransient (cfg : RetryConfig) (fname : String)
    (body : Nat → Except PyExc α × List RemoteCall) : RetryTrace α :=
  retryGo cfg fname body cfg.maxAttempts 0 cfg.initialBackoff none [] []

/-- The pre-jitter backoff value in force before the (n+1)-st sleep:
`backoff = initial_backoff` initially, then
`backoff = min(backoff * multiplier, max_backoff)` after each sleep. -/
def backoffSeq (cfg : RetryConfig) : Nat → ℚ
  | 0 => cfg.initialBackoff
  | n + 1 => min (backoffSeq cfg n * cfg.multiplier) cfg.maxBackoff

/-- The actual slept duration for one retry pause, given the current
pre-jitter backoff and the jitter draw (`random.uniform(0, backoff)`):
`sleep_time = backoff; if jitter: sleep_time = uniform(0, backoff);
time.sleep(min(sleep_time, max_backoff))`. -/
def sleepDuration (cfg : RetryConfig) (backoff jitterDraw : ℚ) : ℚ :=
  let sleepTime := if cfg.jitter then jitterDraw else backoff
  min sleepTime cfg.maxBackoff

/-- Characters of the final path component: scan left to right, restarting
the accumulator after every separator. -/
def lastComponent : List Char → List Char → List Char
  | [], acc => acc
  | c :: cs, acc => if c = '/' then lastComponent cs [] else lastComponent cs (acc ++ [c])

/-- `Path(p).name`: the final path component. -/
def baseName (p : String) : String :=
  String.mk (lastComponent p.toList [])

/-- The single-quote character used by the Drive query mini-language. -/
def sqChar : Char := Char.ofNat 39

/-- The backslash character. -/
def bslashChar : Char := Char.ofNat 92

/-- A single-quote string (modelling the quote used in Drive queries). -/
def sq : String := String.singleton sqChar

/-- Replace every single quote by backslash-quote, character by character. -/
def escapeChars : List Char → List Char
  | [] => []
  | c :: cs =>
    if c = sqChar then bslashChar :: sqChar :: escapeChars cs
    else c :: escapeChars cs

/-- `name.replace("'", "\\'")`: escape quotes before embedding in a query. -/
def escapeName (n : String) : String :=
  String.mk (escapeChars n.toList)

/-- The query built by `find_file_by_name`: exact name equality, optionally
conjoined with a parent-membership clause. -/
def nameQuery (name : String) (parentId : Option String) : String :=
  let base := "name = " ++ sq ++ escapeName name ++ sq
  match parentId with
  | none => base
  | some pid => base ++ " and " ++ sq ++ pid ++ sq ++ " in parents"

/-- Body of `list_files`: one `files().list(q, pageSize).execute()` call. -/
def listFilesBody (svc : Service) (q : Option String) (pageSize : Nat) :
    Except PyExc (List FileMeta) × List RemoteCall :=
  (svc.listResp q pageSize, [RemoteCall.list q])

/-- `list_files`, wrapped by `retry_on_transient()` with defaults. -/
def list_files (svc : Service) (q : Option String) (pageSize : Nat) :
    RetryTrace (List FileMeta) :=
  retryOnTransient defaultRetryConfig "list_files" (fun _ => listFilesBody svc q pageSize)

/-- `find_file_by_name(service, name, parent_id)`: build the name query and
delegate to `list_files` (page size 100, the default). -/
def find_file_by_name (svc : Service) (name : String) (parentId : Option String) :
    RetryTrace (List FileMeta) :=
  list_files svc (some (nameQuery name parentId)) 100

/-- Body of `upload_file`: raise `DriveAPIError("Local file not found: ...")`
if the local path is missing (before any remote call), else one
`files().create(...)` call. -/
def uploadFileBody (fs : LocalFS) (svc : Service) (localPath : String)
    (parentId : Option String) : Except PyExc FileMeta × List RemoteCall :=
  if fs.pathExists localPath = false then
    (Except.error (PyExc.exc "DriveAPIError" ("Local file not found: " ++ localPath)), [])
  else
    (svc.createResp (baseName localPath) parentId,
     [RemoteCall.create (baseName localPath) parentId])

/-- `upload_file`, wrapped by `retry_on_transient()` with defaults. -/
def upload_file (fs : LocalFS) (svc : Service) (localPath : String)
    (parentId : Option String) : RetryTrace FileMeta :=
  retryOnTransient defaultRetryConfig "upload_file"
    (fun _ => uploadFileBody fs svc localPath parentId)

/-- Body of `update_file`: same local-existence precondition, else one
`files().update(fileId, ...)` call. -/
def updateFileBody (fs : LocalFS) (svc : Service) (fileId localPath : String) :
    Except PyExc FileMeta × List RemoteCall :=
  if fs.pathExists localPath = false then
    (Except.error (PyExc.exc "DriveAPIError" ("Local file not found: " ++ localPath)), [])
  else
    (svc.updateResp fileId, [RemoteCall.update fileId])

/-- `update_file`, wrapped by `retry_on_transient()` with defaults. -/
def update_file (fs : LocalFS) (svc : Service) (fileId localPath : String) :
    RetryTrace FileMeta :=
  retryOnTransient defaultRetryConfig "update_file"
    (fun _ => updateFileBody fs svc fileId localPath)

/-- `create_folder`, wrapped by `retry_on_transient()` with defaults. -/
def create_folder (svc : Service) (name : String) (parentId : Option String) :
    RetryTrace FileMeta :=
  retryOnTransient defaultRetryConfig "create_folder"
    (fun _ => (svc.createResp name parentId, [RemoteCall.createFolder name parentId]))

/-- `delete_file`, wrapped by `retry_on_transient()` with defaults. -/
def delete_file (svc : Service) (fileId : String) : RetryTrace Unit :=
  retryOnTransient defaultRetryConfig "delete_file"
    (fun _ => (svc.deleteResp fileId, [RemoteCall.delete fileId]))

/-- Result of one `upsert_file_by_path` call, matching the dictionaries the
Python function returns: an action/name pair (`{"action": a, "name": n}`),
an action/file-id pair (`{"action": a, "file_id": id}`), or the raw remote
metadata returned by `upload_file`/`update_file` (which carries no action
key). -/
inductive UpsertResult where
  | actionName (action name : String)
  | actionFileId (action fileId : String)
  | meta (m : FileMeta)
deriving DecidableEq, Repr

/-- The `"action"` value recorded in an upsert result, if any: raw remote
metadata has no action field. -/
def actionOf : UpsertResult → Option String
  | UpsertResult.actionName a _ => some a
  | UpsertResult.actionFileId a _ => some a
  | UpsertResult.meta _ => none

/-- `upsert_file_by_path(service, local_path, drive_parent_id,
conflict_policy, dry_run)`: look up remote matches by base name, then
create / skip / create-new / overwrite per policy; any exception from the
lookup or the transfer propagates.  Returns the result together with the
full remote-call trace. -/
def upsert_file_by_path (fs : LocalFS) (svc : Service) (localPath : String)
    (driveParentId : Option String) (conflictPolicy : String) (dryRun : Bool) :
    Except PyExc UpsertResult × List RemoteCall :=
  let name := baseName localPath
  let ft := find_file_by_name svc name driveParentId
  match ft.result with
  | Except.error e => (Except.error e, ft.remote)
  | Except.ok matchList =>
    match matchList with
    | [] =>
      if dryRun then
        (Except.ok (UpsertResult.actionName "create" name), ft.remote)
      else
        let up := upload_file fs svc localPath driveParentId
        (up.result.map UpsertResult.meta, ft.remote ++ up.remote)
    | m0 :: _ =>
      let fileId := m0.id
      if conflictPolicy = "skip" then
        (Except.ok (UpsertResult.actionFileId "skip" fileId), ft.remote)
      else if conflictPolicy = "new" then
        if dryRun then
          (Except.ok (UpsertResult.actionName "create_new" name), ft.remote)
        else
          let up := upload_file fs svc localPath driveParentId
          (up.result.map UpsertResult.meta, ft.remote ++ up.remote)
      else
        if dryRun then
          (Except.ok (UpsertResult.actionFileId "update" fileId), ft.remote)
        else
          let up := update_file fs svc fileId localPath
          (up.result.map UpsertResult.meta, ft.remote ++ up.remote)

/-- One entry of the list returned by `sync_folder`: on success
`{"path": p, "result": res}`, on a caught per-file failure
`{"path": p, "error": repr(exc)}`. -/
inductive SyncEntry where
  | ok (path : String) (res : UpsertResult)
  | err (path : String) (errRepr : String)
deriving DecidableEq, Repr

/-- Whether a sync entry is an error record. -/
def isErrEntry : SyncEntry → Bool
  | SyncEntry.ok _ _ => false
  | SyncEntry.err _ _ => true

/-- Whether a sync entry is a success record. -/
def isOkEntry : SyncEntry → Bool
  | SyncEntry.ok _ _ => true
  | SyncEntry.err _ _ => false

/-- `repr(exc)` as recorded in an error entry (abstracted to type and
message). -/
def pyExcRepr : PyExc → String
  | PyExc.exc ty msg => ty ++ "(" ++ msg ++ ")"
  | PyExc.excFrom ty msg _ => ty ++ "(" ++ msg ++ ")"

/-- Lexicographic comparison of character lists by code point. -/
def charListLe : List Char → List Char → Bool
  | [], _ => true
  | _ :: _, [] => false
  | c :: cs, d :: ds =>
    if c.toNat < d.toNat then true
    else if d.toNat < c.toNat then false
    else charListLe cs ds

/-- Lexicographic string comparison (the order `sorted` uses on paths). -/
def strLe (a b : String) : Bool := charListLe a.toList b.toList

/-- Insert a string into a sorted list (ascending, stable). -/
def insertSorted (x : String) : List String → List String
  | [] => [x]
  | y :: ys => if strLe x y then x :: y :: ys else y :: insertSorted x ys

/-- `sorted(...)`: stable ascending sort of the globbed paths. -/
def sortStrings : List String → List String
  | [] => []
  | x :: xs => insertSorted x (sortStrings xs)

/-- Evaluation of the filter gate `if filters and not filters(p)`: with no
filter every file is included; the filter itself may raise. -/
def filterCheck (filters : Option (String → Except PyExc Bool)) (p : String) :
    Except PyExc Bool :=
  match filters with
  | none => Except.ok true
  | some f => f p

/-- The traversal loop of `sync_folder`: skip directories, apply the filter
(whose exception propagates, aborting the pass), and for `mode="upsert"`
run the reconciler inside a try/except that records per-file failures as
error entries; any other mode logs a warning and records nothing. -/
def syncLoop (fs : LocalFS) (svc : Service) (driveParentId : Option String)
    (mode : String) (filters : Option (String → Except PyExc Bool)) (dryRun : Bool) :
    List String → List SyncEntry → Except PyExc (List SyncEntry)
  | [], acc => Except.ok acc
  | p :: rest, acc =>
    if fs.isDir p then
      syncLoop fs svc driveParentId mode filters dryRun rest acc
    else
      match filterCheck filters p with
      | Except.error e => Except.error e
      | Except.ok false => syncLoop fs svc driveParentId mode filters dryRun rest acc
      | Except.ok true =>
        if mode = "upsert" then
          match (upsert_file_by_path fs svc p driveParentId "overwrite" dryRun).1 with
          | Except.ok res =>
            syncLoop fs svc driveParentId mode filters dryRun rest (acc ++ [SyncEntry.ok p res])
          | Except.error e =>
            syncLoop fs svc driveParentId mode filters dryRun rest
              (acc ++ [SyncEntry.err p (pyExcRepr e)])
        else
          syncLoop fs svc driveParentId mode filters dryRun rest acc

/-- `sync_folder(service, local_dir, drive_parent_id, mode, filters,
dry_run)`: raise `DriveAPIError("Local dir not found: ...")` unless
`local_dir` exists and is a directory, then traverse
`sorted(local.rglob("*"))` with the loop above, starting from an empty
result list. -/
def sync_folder (fs : LocalFS) (svc : Service) (localDir : String)
    (driveParentId : Option String) (mode : String)
    (filters : Option (String → Except PyExc Bool)) (dryRun : Bool) :
    Except PyExc (List SyncEntry) :=
  if (fs.pathExists localDir && fs.isDir localDir) = true then
    syncLoop fs svc driveParentId mode filters dryRun (sortStrings (fs.rglob localDir)) []
  else
    Except.error (PyExc.exc "DriveAPIError" ("Local dir not found: " ++ localDir))

/-- Whether a remote call is a read-only `files().list` invocation. -/
def isListCall : RemoteCall → Bool
  | RemoteCall.list _ => true
  | _ => false

/-- Whether a remote call mutates the remote store (create, update, create
folder, delete). -/
def isMutating (c : RemoteCall) : Bool := !(isListCall c)

/-- The per-file entry `sync_folder` records for an included regular file:
the upsert's result on success, `{path, repr(error)}` on failure. -/
def syncEntryFor (fs : LocalFS) (svc : Service) (driveParentId : Option String)
    (dryRun : Bool) (p : String) : SyncEntry :=
  match (upsert_file_by_path fs svc p driveParentId "overwrite" dryRun).1 with
  | Except.ok res => SyncEntry.ok p res
  | Except.error e => SyncEntry.err p (pyExcRepr e)

/-! ### Concrete fixtures used by witnesses and counterexamples -/

/-- A generic transient-looking remote failure, used as a stand-in upstream
exception in concrete runs. -/
def boomExc : PyExc := PyExc.exc "HttpError" "rate limited"

/-- A response used for remote operations a scenario never expects to hit. -/
def unexpectedExc : PyExc := PyExc.exc "AssertionError" "unexpected remote call"

/-- A local filesystem on which no path exists (for the missing-local-file
scenarios). -/
def emptyFS : LocalFS :=
  { pathExists := fun _ => false, isDir := fun _ => false, rglob := fun _ => [] }

/-- A service that refuses every operation (never reached in the scenarios
that use it). -/
def inertService : Service :=
  { listResp := fun _ _ => Except.error unexpectedExc,
    createResp := fun _ _ => Except.error unexpectedExc,
    updateResp := fun _ => Except.error unexpectedExc,
    deleteResp := fun _ => Except.error unexpectedExc }

/-- The decorator's defaults with `max_attempts = 1`: a single attempt, no
retry, no sleep. -/
def c4cfg : RetryConfig :=
  { maxAttempts := 1, initialBackoff := 1, multiplier := 2, maxBackoff := 60, jitter := true }

/-- Retry configuration exhibiting the uncapped first backoff:
`initial_backoff = 2` exceeds `max_backoff = 1`. -/
def c5cfg : RetryConfig :=
  { maxAttempts := 2, initialBackoff := 2, multiplier := 1, maxBackoff := 1, jitter := true }

/-- Local tree for the single-file dry-run scenario: `/docs` holding
`report.txt`. -/
def c6fs : LocalFS :=
  { pathExists := fun p => p == "/docs" || p == "/docs/report.txt",
    isDir := fun p => p == "/docs",
    rglob := fun p => if p == "/docs" then ["/docs/report.txt"] else [] }

/-- A remote store with no matches for any name lookup. -/
def c6svc : Service :=
  { listResp := fun _ _ => Except.ok [],
    createResp := fun _ _ => Except.error unexpectedExc,
    updateResp := fun _ => Except.error unexpectedExc,
    deleteResp := fun _ => Except.error unexpectedExc }

/-- The existing remote match with id `abc123` for the overwrite scenario. -/
def c7match : FileMeta :=
  { id := "abc123", name := "report.txt", mimeType := "text/plain",
    parents := [], modifiedTime := "2024-01-01T00:00:00Z" }

/-- The metadata the remote store returns from the content update. -/
def c7resp : FileMeta :=
  { id := "abc123", name := "report.txt", mimeType := "",
    parents := [], modifiedTime := "2024-01-02T00:00:00Z" }

/-- Local filesystem on which every path exists as a regular file. -/
def c7fs : LocalFS :=
  { pathExists := fun _ => true, isDir := fun _ => false, rglob := fun _ => [] }

/-- Remote store for the overwrite scenario: one match named `report.txt`
with id `abc123`; content update succeeds for that id only. -/
def c7svc : Service :=
  { listResp := fun _ _ => Except.ok [c7match],
    createResp := fun _ _ => Except.error unexpectedExc,
    updateResp := fun fid => if fid == "abc123" then Except.ok c7resp
      else Except.error (PyExc.exc "HttpError" "notFound"),
    deleteResp := fun _ => Except.error unexpectedExc }

/-- Remote store for the skip scenario: one existing match with id
`abc123`; every mutating operation refuses. -/
def c8svc : Service :=
  { listResp := fun _ _ => Except.ok [c7match],
    createResp := fun _ _ => Except.error unexpectedExc,
    updateResp := fun _ => Except.error unexpectedExc,
    deleteResp := fun _ => Except.error unexpectedExc }

/-- Local tree for the partial-failure scenario: `/d` holding `a.txt` and
`b.txt`. -/
def c2fs : LocalFS :=
  { pathExists := fun p => p == "/d" || p == "/d/a.txt" || p == "/d/b.txt",
    isDir := fun p => p == "/d",
    rglob := fun p => if p == "/d" then ["/d/a.txt", "/d/b.txt"] else [] }

/-- Remote store for the partial-failure scenario: the lookup for `a.txt`
finds no match, every other query keeps failing (so the reconciliation of
`b.txt` exhausts its retries and raises). -/
def c2svc : Service :=
  { listResp := fun q _ => if q == some (nameQuery "a.txt" none) then Except.ok []
      else Except.error boomExc,
    createResp := fun _ _ => Except.error unexpectedExc,
    updateResp := fun _ => Except.error unexpectedExc,
    deleteResp := fun _ => Except.error unexpectedExc }

/-- The exception the filter raises in the filter-propagation scenario. -/
def c9exc : PyExc := PyExc.exc "RuntimeError" "filter boom"

/-- A filter that accepts `/d/a.txt` and raises on everything else. -/
def c9filter (p : String) : Except PyExc Bool :=
  if p == "/d/a.txt" then Except.ok true else Except.error c9exc

/-- Remote store for the filter-propagation scenario: no remote matches. -/
def c9svc : Service :=
  { listResp := fun _ _ => Except.ok [],
    createResp := fun _ _ => Except.error unexpectedExc,
    updateResp := fun _ => Except.error unexpectedExc,
    deleteResp := fun _ => Except.error unexpectedExc }

/-! ### Helper lemmas about the retry loop -/

/-- If every call of the body reports only `list` remote calls, the whole
retry run's trace consists of `list` calls only. -/
lemma retryGo_remote_all_list {α : Type} (cfg : RetryConfig) (fname : String)
    (body : Nat → Except PyExc α × List RemoteCall)
    (hbody : ∀ n, ((body n).2).all isListCall = true) :
    ∀ fuel attempt backoff lastExc sl rm, rm.all isListCall = true →
      ((retryGo cfg fname body fuel attempt backoff lastExc sl rm).remote).all isListCall = true := by
  intro fuel
  induction fuel with
  | zero =>
    intro attempt backoff lastExc sl rm hrm
    simpa [retryGo] using hrm
  | succ fuel ih =>
    intro attempt backoff lastExc sl rm hrm
    have hb := hbody (attempt + 1)
    rcases hcall : body (attempt + 1) with ⟨r, rc⟩
    rw [hcall] at hb
    have happ : (rm ++ rc).all isListCall = true := by
      simp only [List.all_append, Bool.and_eq_true]
      exact And.intro hrm (by simpa using hb)
    cases r with
    | ok v => simp [retryGo, hcall, happ]
    | error e =>
      by_cases hf : fuel = 0
      · simp [retryGo, hcall, hf, happ]
      · simp only [retryGo, hcall, if_neg hf]
        exact ih _ _ _ _ _ happ

/-- If every call of the body reports no remote calls at all, the retry run
adds nothing to the remote trace. -/
lemma retryGo_remote_nil {α : Type} (cfg : RetryConfig) (fname : String)
    (body : Nat → Except PyExc α × List RemoteCall)
    (hbody : ∀ n, (body n).2 = []) :
    ∀ fuel attempt backoff lastExc sl rm,
      (retryGo cfg fname body fuel attempt backoff lastExc sl rm).remote = rm := by
  intro fuel
  induction fuel with
  | zero => intro attempt backoff lastExc sl rm; simp [retryGo]
  | succ fuel ih =>
    intro attempt backoff lastExc sl rm
    have hb := hbody (attempt + 1)
    rcases hcall : body (attempt + 1) with ⟨r, rc⟩
    rw [hcall] at hb
    subst hb
    cases r with
    | ok v => simp [retryGo, hcall]
    | error e =>
      by_cases hf : fuel = 0
      · simp [retryGo, hcall, hf]
      · simp only [retryGo, hcall, if_neg hf, List.append_nil]
        exact ih _ _ _ _ _

/-- A body that succeeds on its first call: the wrapper returns that value
after exactly one call, no sleep, and exactly that call's remote trace. -/
lemma retryOnTransient_first_ok {α : Type} (cfg : RetryConfig) (fname : String)
    (body : Nat → Except PyExc α × List RemoteCall) (v : α) (rc : List RemoteCall)
    (k : Nat) (hk : cfg.maxAttempts = k + 1) (hb : body 1 = (Except.ok v, rc)) :
    retryOnTransient cfg fname body =
      { result := Except.ok v, calls := 1, sleeps := [], remote := rc } := by
  unfold retryOnTransient
  rw [hk]
  have h1 : (0 : Nat) + 1 = 1 := rfl
  simp [retryGo, h1, hb]

/-- A body that always fails: after `fuel ≥ 1` remaining attempts starting
from attempt count `attempt`, the loop makes exactly `fuel` further calls,
raises the exhaustion `DriveAPIError` chained to the final call's
exception, and sleeps `fuel - 1` times. -/
lemma retryGo_always_fail {α : Type} (cfg : RetryConfig) (fname : String)
    (body : Nat → Except PyExc α × List RemoteCall) (errF : Nat → PyExc)
    (hfail : ∀ n, (body n).1 = Except.error (errF n)) :
    ∀ fuel, 1 ≤ fuel → ∀ attempt backoff lastExc sl rm,
      (retryGo cfg fname body fuel attempt backoff lastExc sl rm).calls = attempt + fuel
      ∧ (retryGo cfg fname body fuel attempt backoff lastExc sl rm).result =
          Except.error (PyExc.excFrom "DriveAPIError"
            ("Function " ++ fname ++ " failed after " ++ toString (attempt + fuel) ++ " attempts")
            (errF (attempt + fuel)))
      ∧ (retryGo cfg fname body fuel attempt backoff lastExc sl rm).sleeps.length =
          sl.length + (fuel - 1) := by
  intro fuel
  induction fuel with
  | zero => intro h; exact absurd h (by decide)
  | succ fuel ih =>
    intro _ attempt backoff lastExc sl rm
    have hb := hfail (attempt + 1)
    rcases hcall : body (attempt + 1) with ⟨r, rc⟩
    rw [hcall] at hb
    subst hb
    by_cases hf : fuel = 0
    · subst hf
      refine ⟨?_, ?_, ?_⟩ <;> simp [retryGo, hcall, exhaustedExc]
    · have hfuel1 : 1 ≤ fuel := Nat.one_le_iff_ne_zero.mpr hf
      have ihx := ih hfuel1 (attempt + 1)
        (min (backoff * cfg.multiplier) cfg.maxBackoff) (some (errF (attempt + 1)))
        (sl ++ [backoff]) (rm ++ rc)
      have harith : attempt + 1 + fuel = attempt + (fuel + 1) := by omega
      have hlen : (sl ++ [backoff]).length + (fuel - 1) = sl.length + (fuel + 1 - 1) := by
        simp [List.length_append]
        omega
      simp only [retryGo, hcall, if_neg hf]
      rw [harith, hlen] at ihx
      exact ihx

/-- A body that always fails, run through the wrapper with `maxAttempts ≥ 1`:
exactly `maxAttempts` calls, the exhaustion error chained to the final
exception, and `maxAttempts - 1` sleeps. -/
lemma retryOnTransient_always_fail {α : Type} (cfg : RetryConfig) (fname : String)
    (body : Nat → Except PyExc α × List RemoteCall) (errF : Nat → PyExc)
    (hfail : ∀ n, (body n).1 = Except.error (errF n)) (hk : 1 ≤ cfg.maxAttempts) :
    (retryOnTransient cfg fname body).calls = cfg.maxAttempts
    ∧ (retryOnTransient cfg fname body).result =
        Except.error (PyExc.excFrom "DriveAPIError"
          ("Function " ++ fname ++ " failed after " ++ toString cfg.maxAttempts ++ " attempts")
          (errF cfg.maxAttempts))
    ∧ (retryOnTransient cfg fname body).sleeps.length = cfg.maxAttempts - 1 := by
  have h := retryGo_always_fail cfg fname body errF hfail cfg.maxAttempts hk
    0 cfg.initialBackoff none [] []
  simpa [retryOnTransient] using h

/-- For an always-failing body started at backoff `backoffSeq cfg j`, the
recorded pre-jitter sleep values are exactly the next `fuel - 1` entries of
the backoff sequence. -/
lemma retryGo_sleeps_always_fail {α : Type} (cfg : RetryConfig) (fname : String)
    (body : Nat → Except PyExc α × List RemoteCall) (errF : Nat → PyExc)
    (hfail : ∀ n, (body n).1 = Except.error (errF n)) :
    ∀ fuel j attempt lastExc sl rm,
      (retryGo cfg fname body fuel attempt (backoffSeq cfg j) lastExc sl rm).sleeps =
        sl ++ (List.range (fuel - 1)).map (fun t => backoffSeq cfg (j + t)) := by
  intro fuel
  induction fuel with
  | zero => intro j attempt lastExc sl rm; simp [retryGo]
  | succ fuel ih =>
    intro j attempt lastExc sl rm
    have hb := hfail (attempt + 1)
    rcases hcall : body (attempt + 1) with ⟨r, rc⟩
    rw [hcall] at hb
    subst hb
    by_cases hf : fuel = 0
    · subst hf
      simp [retryGo, hcall]
    · have hstep : min (backoffSeq cfg j * cfg.multiplier) cfg.maxBackoff =
          backoffSeq cfg (j + 1) := rfl
      simp only [retryGo, hcall, if_neg hf, hstep]
      rw [ih (j + 1) (attempt + 1) (some (errF (attempt + 1))) (sl ++ [backoffSeq cfg j]) (rm ++ rc)]
      obtain ⟨fuel1, rfl⟩ : ∃ m, fuel = m + 1 := ⟨fuel - 1, by omega⟩
      have hfun : (fun t => backoffSeq cfg (j + 1 + t)) = fun t => backoffSeq cfg (j + (t + 1)) := by
        funext t
        have : j + 1 + t = j + (t + 1) := by omega
        rw [this]
      simp only [Nat.add_sub_cancel, List.range_succ_eq_map, List.map_cons, List.map_map,
        List.append_assoc, List.cons_append, List.nil_append, Nat.add_zero]
      rw [hfun]
      rfl

/-- Closed form of the backoff recursion: when the initial backoff is
nonnegative and does not exceed the cap, and the multiplier is
nonnegative, `backoffSeq cfg n = min (initial * multiplier ^ n, maxBackoff)`. -/
lemma backoffSeq_closed (cfg : RetryConfig) (h0 : 0 ≤ cfg.initialBackoff)
    (hiM : cfg.initialBackoff ≤ cfg.maxBackoff) (hm : 0 ≤ cfg.multiplier) :
    ∀ n, backoffSeq cfg n = min (cfg.initialBackoff * cfg.multiplier ^ n) cfg.maxBackoff := by
  have hM0 : 0 ≤ cfg.maxBackoff := le_trans h0 hiM
  intro n
  induction n with
  | zero => simp [backoffSeq, min_eq_left hiM]
  | succ n ih =>
    have hA0 : 0 ≤ cfg.initialBackoff * cfg.multiplier ^ n :=
      mul_nonneg h0 (pow_nonneg hm n)
    rw [show backoffSeq cfg (n + 1) =
          min (backoffSeq cfg n * cfg.multiplier) cfg.maxBackoff from rfl, ih]
    rcases le_total (cfg.initialBackoff * cfg.multiplier ^ n) cfg.maxBackoff with hle | hge
    · rw [min_eq_left hle, pow_succ, ← mul_assoc]
    · rw [min_eq_right hge]
      rcases le_total 1 cfg.multiplier with h1m | hm1
      · have hMm : cfg.maxBackoff ≤ cfg.maxBackoff * cfg.multiplier :=
          le_mul_of_one_le_right hM0 h1m
        have hAm : cfg.maxBackoff * cfg.multiplier ≤
            cfg.initialBackoff * cfg.multiplier ^ n * cfg.multiplier :=
          mul_le_mul_of_nonneg_right hge hm
        rw [min_eq_right hMm, min_eq_right ?hr]
        case hr =>
          calc cfg.maxBackoff ≤ cfg.maxBackoff * cfg.multiplier := hMm
            _ ≤ cfg.initialBackoff * cfg.multiplier ^ n * cfg.multiplier := hAm
            _ = cfg.initialBackoff * cfg.multiplier ^ (n + 1) := by rw [pow_succ, mul_assoc]
      · have hpow : cfg.multiplier ^ n ≤ 1 := pow_le_one₀ hm hm1
        have hAi : cfg.initialBackoff * cfg.multiplier ^ n ≤ cfg.initialBackoff :=
          mul_le_of_le_one_right h0 hpow
        have hAM : cfg.initialBackoff * cfg.multiplier ^ n = cfg.maxBackoff :=
          le_antisymm (le_trans hAi hiM) hge
        have hMm : cfg.maxBackoff * cfg.multiplier ≤ cfg.maxBackoff :=
          mul_le_of_le_one_right hM0 hm1
        rw [min_eq_left hMm, min_eq_left ?hl]
        case hl =>
          calc cfg.initialBackoff * cfg.multiplier ^ (n + 1)
              = cfg.initialBackoff * cfg.multiplier ^ n * cfg.multiplier := by
                rw [pow_succ, mul_assoc]
            _ = cfg.maxBackoff * cfg.multiplier := by rw [hAM]
            _ ≤ cfg.maxBackoff := hMm
        calc cfg.maxBackoff * cfg.multiplier
            = cfg.initialBackoff * cfg.multiplier ^ n * cfg.multiplier := by rw [hAM]
          _ = cfg.initialBackoff * cfg.multiplier ^ (n + 1) := by rw [pow_succ, mul_assoc]

/-- Every remote call made by a name lookup is a `list` call. -/
lemma find_remote_all_list (svc : Service) (name : String) (parentId : Option String) :
    ((find_file_by_name svc name parentId).remote).all isListCall = true := by
  unfold find_file_by_name list_files retryOnTransient
  exact retryGo_remote_all_list _ _ _ (fun _ => by simp [listFilesBody, isListCall]) _ _ _ _ _ _ rfl

/-- A trace of `list` calls only contains no mutating call. -/
lemma filter_mutating_of_all_list (l : List RemoteCall) (h : l.all isListCall = true) :
    l.filter isMutating = [] := by
  rw [List.filter_eq_nil_iff]
  intro c hc
  have := List.all_eq_true.mp h c hc
  simp [isMutating, this]

/-- When every traversed path is a regular file passing the filter and the
mode is `upsert`, the loop records one entry per file, in order, never
propagating a per-file upsert failure. -/
lemma syncLoop_ok_of_files (fs : LocalFS) (svc : Service) (driveParentId : Option String)
    (filters : Option (String → Except PyExc Bool)) (dryRun : Bool) :
    ∀ files : List String, (∀ p ∈ files, fs.isDir p = false) →
      (∀ p ∈ files, filterCheck filters p = Except.ok true) →
      ∀ acc, syncLoop fs svc driveParentId "upsert" filters dryRun files acc =
        Except.ok (acc ++ files.map (syncEntryFor fs svc driveParentId dryRun)) := by
  intro files
  induction files with
  | nil => intro _ _ acc; simp [syncLoop]
  | cons p rest ih =>
    intro hnd hfl acc
    have hp : fs.isDir p = false := hnd p (List.mem_cons_self p rest)
    have hf : filterCheck filters p = Except.ok true := hfl p (List.mem_cons_self p rest)
    have hnd' : ∀ q ∈ rest, fs.isDir q = false := fun q hq => hnd q (List.mem_cons_of_mem p hq)
    have hfl' : ∀ q ∈ rest, filterCheck filters q = Except.ok true :=
      fun q hq => hfl q (List.mem_cons_of_mem p hq)
    cases hu : (upsert_file_by_path fs svc p driveParentId "overwrite" dryRun).1 with
    | ok res =>
      simp only [syncLoop, hp, hf, Bool.false_eq_true, if_false, if_pos rfl, hu]
      rw [ih hnd' hfl' (acc ++ [SyncEntry.ok p res])]
      simp [syncEntryFor, hu]
    | error e =>
      simp only [syncLoop, hp, hf, Bool.false_eq_true, if_false, if_pos rfl, hu]
      rw [ih hnd' hfl' (acc ++ [SyncEntry.err p (pyExcRepr e)])]
      simp [syncEntryFor, hu]

/-- If every path before `p` is a directory or gets a non-raising filter
verdict, and the filter raises `e` at the regular file `p`, the loop
aborts with `e`, discarding everything accumulated so far. -/
lemma syncLoop_filter_raises (fs : LocalFS) (svc : Service) (driveParentId : Option String)
    (mode : String) (f : String → Except PyExc Bool) (dryRun : Bool)
    (p : String) (rest : List String) (e : PyExc)
    (hp : fs.isDir p = false) (hf : f p = Except.error e) :
    ∀ pre : List String, (∀ q ∈ pre, fs.isDir q = true ∨ ∃ b, f q = Except.ok b) →
      ∀ acc, syncLoop fs svc driveParentId mode (some f) dryRun (pre ++ p :: rest) acc =
        Except.error e := by
  intro pre
  induction pre with
  | nil =>
    intro _ acc
    simp [syncLoop, hp, filterCheck, hf]
  | cons q pre ih =>
    intro hpre acc
    have hq := hpre q (List.mem_cons_self q pre)
    have hpre' : ∀ r ∈ pre, fs.isDir r = true ∨ ∃ b, f r = Except.ok b :=
      fun r hr => hpre r (List.mem_cons_of_mem q hr)
    rcases hq with hdir | ⟨b, hok⟩
    · simp only [List.cons_append, syncLoop, hdir, if_pos rfl]
      exact ih hpre' acc
    · cases b with
      | false =>
        simp only [List.cons_append, syncLoop, filterCheck, hok]
        by_cases hd : fs.isDir q
        · simp only [if_pos hd]; exact ih hpre' acc
        · simp only [hd, Bool.false_eq_true, if_false]
          exact ih hpre' acc
      | true =>
        by_cases hd : fs.isDir q
        · simp only [List.cons_append, syncLoop, hd, if_pos rfl]
          exact ih hpre' acc
        · by_cases hm : mode = "upsert"
          · subst hm
            simp only [List.cons_append, syncLoop, hd, Bool.false_eq_true, if_false,
              filterCheck, hok, if_pos rfl]
            cases hu : (upsert_file_by_path fs svc q driveParentId "overwrite" dryRun).1 with
            | ok res => exact ih hpre' _
            | error e2 => exact ih hpre' _
          · simp only [List.cons_append, syncLoop, hd, Bool.false_eq_true, if_false,
              filterCheck, hok, if_neg hm]
            exact ih hpre' acc

/-! ### Case analyses of the reconciler -/

/-- A failing name lookup propagates out of the reconciler unmodified. -/
lemma upsert_of_find_error (fs : LocalFS) (svc : Service) (localPath : String)
    (pid : Option String) (pol : String) (dr : Bool) (e : PyExc)
    (h : (find_file_by_name svc (baseName localPath) pid).result = Except.error e) :
    upsert_file_by_path fs svc localPath pid pol dr =
      (Except.error e, (find_file_by_name svc (baseName localPath) pid).remote) := by
  simp only [upsert_file_by_path, h]

/-- With no remote match the reconciler creates (or, under dry-run, returns
the `create` action without uploading). -/
lemma upsert_of_find_nil (fs : LocalFS) (svc : Service) (localPath : String)
    (pid : Option String) (pol : String) (dr : Bool)
    (h : (find_file_by_name svc (baseName localPath) pid).result = Except.ok []) :
    upsert_file_by_path fs svc localPath pid pol dr =
      if dr then
        (Except.ok (UpsertResult.actionName "create" (baseName localPath)),
          (find_file_by_name svc (baseName localPath) pid).remote)
      else
        ((upload_file fs svc localPath pid).result.map UpsertResult.meta,
          (find_file_by_name svc (baseName localPath) pid).remote ++
            (upload_file fs svc localPath pid).remote) := by
  simp only [upsert_file_by_path, h]

/-- With a first remote match `m0`, the reconciler dispatches on the
conflict policy exactly as the chained `if`/`elif`/`else` does. -/
lemma upsert_of_find_cons (fs : LocalFS) (svc : Service) (localPath : String)
    (pid : Option String) (pol : String) (dr : Bool) (m0 : FileMeta) (rest : List FileMeta)
    (h : (find_file_by_name svc (baseName localPath) pid).result = Except.ok (m0 :: rest)) :
    upsert_file_by_path fs svc localPath pid pol dr =
      if pol = "skip" then
        (Except.ok (UpsertResult.actionFileId "skip" m0.id),
          (find_file_by_name svc (baseName localPath) pid).remote)
      else if pol = "new" then
        if dr then
          (Except.ok (UpsertResult.actionName "create_new" (baseName localPath)),
            (find_file_by_name svc (baseName localPath) pid).remote)
        else
          ((upload_file fs svc localPath pid).result.map UpsertResult.meta,
            (find_file_by_name svc (baseName localPath) pid).remote ++
              (upload_file fs svc localPath pid).remote)
      else
        if dr then
          (Except.ok (UpsertResult.actionFileId "update" m0.id),
            (find_file_by_name svc (baseName localPath) pid).remote)
        else
          ((update_file fs svc m0.id localPath).result.map UpsertResult.meta,
            (find_file_by_name svc (baseName localPath) pid).remote ++
              (update_file fs svc m0.id localPath).remote) := by
  simp only [upsert_file_by_path, h]

/-! ### Claim theorems -/

/-- C1: for every local path, parent id and conflict policy,
`upsert_file_by_path` with `dry_run=True` performs no mutating remote
operation — every remote call in its trace is a `files().list` invocation
(issued via `find_file_by_name`); `upload_file`, `update_file`,
`create_folder` and `delete_file` are never invoked. -/
theorem upsert_dry_run_only_list_calls (fs : LocalFS) (svc : Service) (localPath : String)
    (driveParentId : Option String) (conflictPolicy : String) :
    ((upsert_file_by_path fs svc localPath driveParentId conflictPolicy true).2).all
      isListCall = true := by
  have hall := find_remote_all_list svc (baseName localPath) driveParentId
  cases hft : (find_file_by_name svc (baseName localPath) driveParentId).result with
  | error e =>
    rw [upsert_of_find_error _ _ _ _ _ _ _ hft]
    exact hall
  | ok ml =>
    cases ml with
    | nil =>
      rw [upsert_of_find_nil _ _ _ _ _ _ hft]
      simpa using hall
    | cons m0 rest =>
      rw [upsert_of_find_cons _ _ _ _ _ _ m0 rest hft]
      by_cases hs : conflictPolicy = "skip"
      · rw [if_pos hs]
        exact hall
      · rw [if_neg hs]
        by_cases hn : conflictPolicy = "new"
        · rw [if_pos hn]
          simpa using hall
        · rw [if_neg hn]
          simpa using hall

/-- C10: any conflict policy string other than `"skip"` and `"new"` (not
only `"overwrite"`) falls into the final `else` branch, so the reconciler
behaves exactly as under the overwrite policy; unrecognized values are
never rejected. -/
theorem upsert_unknown_policy_is_overwrite (fs : LocalFS) (svc : Service) (localPath : String)
    (pid : Option String) (pol : String) (dr : Bool)
    (hs : pol ≠ "skip") (hn : pol ≠ "new") :
    upsert_file_by_path fs svc localPath pid pol dr =
      upsert_file_by_path fs svc localPath pid "overwrite" dr := by
  cases hft : (find_file_by_name svc (baseName localPath) pid).result with
  | error e =>
    rw [upsert_of_find_error _ _ _ _ pol _ _ hft,
      upsert_of_find_error _ _ _ _ "overwrite" _ _ hft]
  | ok ml =>
    cases ml with
    | nil =>
      rw [upsert_of_find_nil _ _ _ _ pol _ hft, upsert_of_find_nil _ _ _ _ "overwrite" _ hft]
    | cons m0 rest =>
      rw [upsert_of_find_cons _ _ _ _ pol _ m0 rest hft,
        upsert_of_find_cons _ _ _ _ "overwrite" _ m0 rest hft,
        if_neg hs, if_neg hn,
        if_neg (show ¬("overwrite" = "skip") by decide),
        if_neg (show ¬("overwrite" = "new") by decide)]

/-- Witness for C10: the misspelled policy `"overwrit"` on a file with an
existing remote match behaves exactly as `"overwrite"`. -/
theorem upsert_unknown_policy_is_overwrite_witness :
    ("overwrit" ≠ "skip") ∧ ("overwrit" ≠ "new") ∧
      upsert_file_by_path c7fs c7svc "/docs/report.txt" none "overwrit" false =
        upsert_file_by_path c7fs c7svc "/docs/report.txt" none "overwrite" false :=
  ⟨by decide, by decide,
    upsert_unknown_policy_is_overwrite c7fs c7svc "/docs/report.txt" none "overwrit" false
      (by decide) (by decide)⟩

/-- C8: with a non-empty match list, the skip policy always returns the
`skip` action carrying the first match's id — for either dry-run mode, and
hence identically on every repeated call — and its remote trace holds
`list` calls only (no mutation). -/
theorem upsert_skip_idempotent (fs : LocalFS) (svc : Service) (localPath : String)
    (pid : Option String) (m : FileMeta) (rest : List FileMeta)
    (hfind : (find_file_by_name svc (baseName localPath) pid).result =
      Except.ok (m :: rest)) :
    ∀ dr : Bool,
      (upsert_file_by_path fs svc localPath pid "skip" dr).1 =
        Except.ok (UpsertResult.actionFileId "skip" m.id)
      ∧ ((upsert_file_by_path fs svc localPath pid "skip" dr).2).all isListCall = true := by
  intro dr
  rw [upsert_of_find_cons _ _ _ _ _ _ m rest hfind, if_pos rfl]
  exact ⟨rfl, find_remote_all_list _ _ _⟩

/-- Witness for C8: a concrete store with one match of id `abc123`; skip
returns that id and no mutating call is made. -/
theorem upsert_skip_idempotent_witness :
    (find_file_by_name c8svc (baseName "/docs/report.txt") none).result =
      Except.ok [c7match]
    ∧ ((upsert_file_by_path c7fs c8svc "/docs/report.txt" none "skip" false).1 =
        Except.ok (UpsertResult.actionFileId "skip" c7match.id)
      ∧ ((upsert_file_by_path c7fs c8svc "/docs/report.txt" none "skip" false).2).all
          isListCall = true) :=
  ⟨by decide,
    upsert_skip_idempotent c7fs c8svc "/docs/report.txt" none c7match [] (by decide) false⟩

/-- Counterexample to C7 as stated: in the overwrite scenario with one
remote match of id `abc123`, the content update is indeed invoked exactly
once with that id, but the value returned is the remote metadata from
`update_file` — a record with no `action` field at all, so the result does
not record the action `"update"`. -/
theorem upsert_overwrite_no_action_label :
    (upsert_file_by_path c7fs c7svc "/docs/report.txt" none "overwrite" false).1 =
      Except.ok (UpsertResult.meta c7resp)
    ∧ ((upsert_file_by_path c7fs c7svc "/docs/report.txt" none "overwrite" false).2).filter
        isMutating = [RemoteCall.update "abc123"]
    ∧ actionOf (UpsertResult.meta c7resp) ≠ some "update" :=
  ⟨by decide, by decide, by decide⟩

/-- C7 (amended): with `conflict_policy="overwrite"`, `dry_run=False` and a
first remote match of id `abc123` whose content update succeeds with
metadata `m`, the update operation is invoked exactly once with id
`abc123` (it is the only mutating call in the trace) and the returned
result is the remote metadata `m` itself — not an action-labelled record. -/
theorem upsert_overwrite_updates_once (fs : LocalFS) (svc : Service) (localPath : String)
    (pid : Option String) (m0 : FileMeta) (rest : List FileMeta) (m : FileMeta)
    (hlocal : fs.pathExists localPath = true)
    (hfind : (find_file_by_name svc (baseName localPath) pid).result =
      Except.ok (m0 :: rest))
    (hid : m0.id = "abc123")
    (hupd : svc.updateResp "abc123" = Except.ok m) :
    (upsert_file_by_path fs svc localPath pid "overwrite" false).1 =
      Except.ok (UpsertResult.meta m)
    ∧ ((upsert_file_by_path fs svc localPath pid "overwrite" false).2).filter isMutating =
        [RemoteCall.update "abc123"] := by
  have hupdate : update_file fs svc m0.id localPath =
      { result := Except.ok m, calls := 1, sleeps := [],
        remote := [RemoteCall.update "abc123"] } := by
    unfold update_file
    apply retryOnTransient_first_ok defaultRetryConfig "update_file" _ m
      [RemoteCall.update "abc123"] 5 rfl
    simp [updateFileBody, hlocal, hid, hupd]
  have hres : (update_file fs svc m0.id localPath).result = Except.ok m := by
    rw [hupdate]
  have hrem : (update_file fs svc m0.id localPath).remote = [RemoteCall.update "abc123"] := by
    rw [hupdate]
  rw [upsert_of_find_cons _ _ _ _ _ _ m0 rest hfind,
    if_neg (show ¬("overwrite" = "skip") by decide),
    if_neg (show ¬("overwrite" = "new") by decide),
    if_neg (show ¬(false = true) by decide), hres, hrem]
  refine ⟨rfl, ?_⟩
  rw [List.filter_append,
    filter_mutating_of_all_list _ (find_remote_all_list svc (baseName localPath) pid)]
  rfl

/-- Witness for C7 (amended): the concrete overwrite scenario. -/
theorem upsert_overwrite_updates_once_witness :
    c7fs.pathExists "/docs/report.txt" = true
    ∧ ((upsert_file_by_path c7fs c7svc "/docs/report.txt" none "overwrite" false).1 =
        Except.ok (UpsertResult.meta c7resp)
      ∧ ((upsert_file_by_path c7fs c7svc "/docs/report.txt" none "overwrite" false).2).filter
          isMutating = [RemoteCall.update "abc123"]) :=
  ⟨rfl, upsert_overwrite_updates_once c7fs c7svc "/docs/report.txt" none c7match [] c7resp
    rfl (by decide) rfl (by decide)⟩

/-- Counterexample to C6 as stated: in the single-file dry-run scenario the
recorded action label is `"create"`, not `"dry_run_create"` — the code
reuses the wet-run labels for dry-run results (lines 380/392/397 of
`drive_api.py`), distinguishing dry runs only in log events. -/
theorem sync_dry_run_label_is_create :
    sync_folder c6fs c6svc "/docs" none "upsert" none true =
      Except.ok [SyncEntry.ok "/docs/report.txt" (UpsertResult.actionName "create" "report.txt")]
    ∧ actionOf (UpsertResult.actionName "create" "report.txt") = some "create"
    ∧ (some "create" : Option String) ≠ some "dry_run_create" :=
  ⟨by decide, rfl, by decide⟩

/-- C6 (amended): a dry-run sync over a directory holding the single file
`report.txt` with no remote match returns exactly one success entry, whose
recorded action is the label `"create"` (the same label as a wet create;
there is no distinct `dry_run_create` label in results). -/
theorem sync_dry_run_single_create (fs : LocalFS) (svc : Service) (dir : String)
    (pid : Option String) (p : String)
    (hex : fs.pathExists dir = true) (hd : fs.isDir dir = true)
    (hglob : sortStrings (fs.rglob dir) = [p]) (hpd : fs.isDir p = false)
    (hfind : (find_file_by_name svc (baseName p) pid).result = Except.ok []) :
    sync_folder fs svc dir pid "upsert" none true =
      Except.ok [SyncEntry.ok p (UpsertResult.actionName "create" (baseName p))] := by
  unfold sync_folder
  rw [hex, hd]
  rw [if_pos (show (true && true) = true from rfl), hglob]
  rw [syncLoop_ok_of_files fs svc pid none true [p]
    (by intro q hq; rcases List.mem_singleton.mp hq with rfl; exact hpd)
    (by intro q hq; rfl) []]
  have hentry : syncEntryFor fs svc pid true p =
      SyncEntry.ok p (UpsertResult.actionName "create" (baseName p)) := by
    unfold syncEntryFor
    rw [upsert_of_find_nil _ _ _ _ _ _ hfind, if_pos rfl]
  rw [List.nil_append, List.map_cons, List.map_nil, hentry]

/-- Witness for C6 (amended): the concrete `/docs/report.txt` scenario. -/
theorem sync_dry_run_single_create_witness :
    c6fs.pathExists "/docs" = true ∧ c6fs.isDir "/docs" = true
    ∧ sortStrings (c6fs.rglob "/docs") = ["/docs/report.txt"]
    ∧ c6fs.isDir "/docs/report.txt" = false
    ∧ sync_folder c6fs c6svc "/docs" none "upsert" none true =
        Except.ok [SyncEntry.ok "/docs/report.txt"
          (UpsertResult.actionName "create" (baseName "/docs/report.txt"))] :=
  ⟨rfl, rfl, by decide, by decide,
    sync_dry_run_single_create c6fs c6svc "/docs" none "/docs/report.txt"
      rfl rfl (by decide) (by decide) (by decide)⟩

/-- C2: over a directory of N regular files that all pass the filter, where
the per-file upsert raises for exactly one file and succeeds for the rest,
`sync_folder` returns exactly N results — exactly one error record and
N-1 success records — and the raised exception never propagates out. -/
theorem sync_partial_failure_isolation (fs : LocalFS) (svc : Service) (localDir : String)
    (pid : Option String) (filters : Option (String → Except PyExc Bool)) (dr : Bool)
    (pre post : List String) (pstar : String) (e : PyExc)
    (hex : fs.pathExists localDir = true) (hd : fs.isDir localDir = true)
    (hglob : sortStrings (fs.rglob localDir) = pre ++ pstar :: post)
    (hnd : ∀ p ∈ pre ++ pstar :: post, fs.isDir p = false)
    (hfl : ∀ p ∈ pre ++ pstar :: post, filterCheck filters p = Except.ok true)
    (hbad : (upsert_file_by_path fs svc pstar pid "overwrite" dr).1 = Except.error e)
    (hpre : ∀ q ∈ pre, ∃ r, (upsert_file_by_path fs svc q pid "overwrite" dr).1 = Except.ok r)
    (hpost : ∀ q ∈ post, ∃ r, (upsert_file_by_path fs svc q pid "overwrite" dr).1 = Except.ok r) :
    sync_folder fs svc localDir pid "upsert" filters dr =
      Except.ok ((pre ++ pstar :: post).map (syncEntryFor fs svc pid dr))
    ∧ ((pre ++ pstar :: post).map (syncEntryFor fs svc pid dr)).length =
        (pre ++ pstar :: post).length
    ∧ ((pre ++ pstar :: post).map (syncEntryFor fs svc pid dr)).countP isErrEntry = 1
    ∧ ((pre ++ pstar :: post).map (syncEntryFor fs svc pid dr)).countP isOkEntry =
        (pre ++ pstar :: post).length - 1 := by
  have hFok : ∀ q, (∃ r, (upsert_file_by_path fs svc q pid "overwrite" dr).1 = Except.ok r) →
      isErrEntry (syncEntryFor fs svc pid dr q) = false
      ∧ isOkEntry (syncEntryFor fs svc pid dr q) = true := by
    rintro q ⟨r, hr⟩
    unfold syncEntryFor
    rw [hr]
    exact ⟨rfl, rfl⟩
  have hFbad : isErrEntry (syncEntryFor fs svc pid dr pstar) = true
      ∧ isOkEntry (syncEntryFor fs svc pid dr pstar) = false := by
    unfold syncEntryFor
    rw [hbad]
    exact ⟨rfl, rfl⟩
  refine ⟨?_, List.length_map _ _, ?_, ?_⟩
  · unfold sync_folder
    rw [hex, hd]
    rw [if_pos (show (true && true) = true from rfl), hglob,
      syncLoop_ok_of_files fs svc pid filters dr _ hnd hfl [], List.nil_append]
  · rw [List.map_append, List.map_cons, List.countP_append, List.countP_cons]
    have h1 : (pre.map (syncEntryFor fs svc pid dr)).countP isErrEntry = 0 := by
      rw [List.countP_eq_zero]
      intro a ha
      rcases List.mem_map.mp ha with ⟨q, hq, rfl⟩
      simp [(hFok q (hpre q hq)).1]
    have h2 : (post.map (syncEntryFor fs svc pid dr)).countP isErrEntry = 0 := by
      rw [List.countP_eq_zero]
      intro a ha
      rcases List.mem_map.mp ha with ⟨q, hq, rfl⟩
      simp [(hFok q (hpost q hq)).1]
    rw [h1, h2, hFbad.1]
    rfl
  · rw [List.map_append, List.map_cons, List.countP_append, List.countP_cons]
    have h1 : (pre.map (syncEntryFor fs svc pid dr)).countP isOkEntry = pre.length := by
      rw [show pre.length = (pre.map (syncEntryFor fs svc pid dr)).length from
        (List.length_map _ _).symm, List.countP_eq_length]
      intro a ha
      rcases List.mem_map.mp ha with ⟨q, hq, rfl⟩
      exact (hFok q (hpre q hq)).2
    have h2 : (post.map (syncEntryFor fs svc pid dr)).countP isOkEntry = post.length := by
      rw [show post.length = (post.map (syncEntryFor fs svc pid dr)).length from
        (List.length_map _ _).symm, List.countP_eq_length]
      intro a ha
      rcases List.mem_map.mp ha with ⟨q, hq, rfl⟩
      exact (hFok q (hpost q hq)).2
    rw [h1, h2, hFbad.2]
    simp only [List.length_append, List.length_cons, Bool.false_eq_true, if_false]
    omega

/-- Witness for C2: `/d` holds `a.txt` (reconciles fine in dry-run) and
`b.txt` (its name lookup keeps failing, so its upsert raises after the
retries); the pass yields two entries, one error, one success. -/
theorem sync_partial_failure_isolation_witness :
    c2fs.pathExists "/d" = true
    ∧ sortStrings (c2fs.rglob "/d") = ["/d/a.txt"] ++ "/d/b.txt" :: []
    ∧ (upsert_file_by_path c2fs c2svc "/d/b.txt" none "overwrite" true).1 =
        Except.error (PyExc.excFrom "DriveAPIError"
          "Function list_files failed after 6 attempts" boomExc)
    ∧ (sync_folder c2fs c2svc "/d" none "upsert" none true =
        Except.ok ((["/d/a.txt"] ++ "/d/b.txt" :: []).map (syncEntryFor c2fs c2svc none true))
      ∧ ((["/d/a.txt"] ++ "/d/b.txt" :: []).map (syncEntryFor c2fs c2svc none true)).length =
          (["/d/a.txt"] ++ "/d/b.txt" :: []).length
      ∧ ((["/d/a.txt"] ++ "/d/b.txt" :: []).map (syncEntryFor c2fs c2svc none true)).countP
          isErrEntry = 1
      ∧ ((["/d/a.txt"] ++ "/d/b.txt" :: []).map (syncEntryFor c2fs c2svc none true)).countP
          isOkEntry = (["/d/a.txt"] ++ "/d/b.txt" :: []).length - 1) :=
  ⟨rfl, by decide, by decide,
    sync_partial_failure_isolation c2fs c2svc "/d" none none true
      ["/d/a.txt"] [] "/d/b.txt"
      (PyExc.excFrom "DriveAPIError" "Function list_files failed after 6 attempts" boomExc)
      rfl rfl (by decide) (by decide) (by decide) (by decide)
      (by
        intro q hq
        rcases List.mem_singleton.mp hq with rfl
        exact ⟨UpsertResult.actionName "create" "a.txt", by decide⟩)
      (by intro q hq; exact absurd hq (List.not_mem_nil q))⟩

/-- C9: failure isolation does not cover the filter predicate — when the
filter raises at a file (every earlier path being a directory or getting a
filter verdict), the exception propagates out of `sync_folder` and the
results accumulated so far are discarded; only per-file upsert exceptions
are caught. -/
theorem sync_filter_exception_propagates (fs : LocalFS) (svc : Service) (dir : String)
    (pid : Option String) (mode : String) (dr : Bool) (f : String → Except PyExc Bool)
    (pre rest : List String) (p : String) (e : PyExc)
    (hex : fs.pathExists dir = true) (hd : fs.isDir dir = true)
    (hglob : sortStrings (fs.rglob dir) = pre ++ p :: rest)
    (hpre : ∀ q ∈ pre, fs.isDir q = true ∨ ∃ b, f q = Except.ok b)
    (hp : fs.isDir p = false) (hf : f p = Except.error e) :
    sync_folder fs svc dir pid mode (some f) dr = Except.error e := by
  unfold sync_folder
  rw [hex, hd]
  rw [if_pos (show (true && true) = true from rfl), hglob]
  exact syncLoop_filter_raises fs svc pid mode f dr p rest e hp hf pre hpre []

/-- Witness for C9: the filter accepts `a.txt` and raises at `b.txt`; the
whole pass aborts with the filter's exception. -/
theorem sync_filter_exception_propagates_witness :
    c9filter "/d/b.txt" = Except.error c9exc
    ∧ sync_folder c2fs c9svc "/d" none "upsert" (some c9filter) true =
        Except.error c9exc :=
  ⟨by decide,
    sync_filter_exception_propagates c2fs c9svc "/d" none "upsert" true c9filter
      ["/d/a.txt"] [] "/d/b.txt" c9exc rfl rfl (by decide)
      (by
        intro q hq
        rcases List.mem_singleton.mp hq with rfl
        exact Or.inr ⟨true, by decide⟩)
      (by decide) (by decide)⟩

/-- C4: a retry-wrapped function whose body always raises is called exactly
`max_attempts = k` times (k ≥ 1), after which the wrapper raises
`DriveAPIError` reporting `failed after k attempts`, chained to the last
underlying exception; `k - 1` sleeps occur in between, so with `k = 1` the
failure surfaces after one call with no sleep. -/
theorem retry_exhausts_attempts {α : Type} (cfg : RetryConfig) (fname : String)
    (body : Nat → Except PyExc α × List RemoteCall) (errF : Nat → PyExc) (k : Nat)
    (hk : cfg.maxAttempts = k) (hk1 : 1 ≤ k)
    (hfail : ∀ n, (body n).1 = Except.error (errF n)) :
    (retryOnTransient cfg fname body).calls = k
    ∧ (retryOnTransient cfg fname body).result = Except.error (PyExc.excFrom "DriveAPIError"
        ("Function " ++ fname ++ " failed after " ++ toString k ++ " attempts") (errF k))
    ∧ (retryOnTransient cfg fname body).sleeps.length = k - 1 := by
  subst hk
  exact retryOnTransient_always_fail cfg fname body errF hfail hk1

/-- Witness for C4: `max_attempts = 1`, an always-raising body — one call,
immediate `DriveAPIError`, zero sleeps. -/
theorem retry_exhausts_attempts_witness :
    c4cfg.maxAttempts = 1 ∧ 1 ≤ 1
    ∧ ((retryOnTransient c4cfg "op" (fun _ => ((Except.error boomExc, []) : Except PyExc Unit × List RemoteCall))).calls = 1
      ∧ (retryOnTransient c4cfg "op" (fun _ => ((Except.error boomExc, []) : Except PyExc Unit × List RemoteCall))).result =
          Except.error (PyExc.excFrom "DriveAPIError"
            ("Function " ++ "op" ++ " failed after " ++ toString 1 ++ " attempts") boomExc)
      ∧ (retryOnTransient c4cfg "op" (fun _ => ((Except.error boomExc, []) : Except PyExc Unit × List RemoteCall))).sleeps.length =
          1 - 1) :=
  ⟨rfl, by decide,
    retry_exhausts_attempts c4cfg "op" (fun _ => ((Except.error boomExc, []) : Except PyExc Unit × List RemoteCall))
      (fun _ => boomExc) 1 rfl (by decide) (fun _ => rfl)⟩

/-- C3 (amended): a missing local path makes the body of `upload_file` (and
of `update_file`) raise `Local file not found` before any remote call —
but the body sits inside the all-exceptions retry wrapper, so it is
executed the full `max_attempts = 6` times with 5 sleeps in between, and
the caller receives the exhaustion `DriveAPIError` chained to the
missing-file error; no remote call is ever made. -/
theorem upload_missing_local_retried (fs : LocalFS) (svc : Service) (lp : String)
    (pid : Option String) (fid : String)
    (hmiss : fs.pathExists lp = false) :
    ((upload_file fs svc lp pid).result = Except.error (PyExc.excFrom "DriveAPIError"
        ("Function " ++ "upload_file" ++ " failed after " ++ toString 6 ++ " attempts")
        (PyExc.exc "DriveAPIError" ("Local file not found: " ++ lp)))
      ∧ (upload_file fs svc lp pid).calls = 6
      ∧ (upload_file fs svc lp pid).sleeps.length = 5
      ∧ (upload_file fs svc lp pid).remote = [])
    ∧ ((update_file fs svc fid lp).result = Except.error (PyExc.excFrom "DriveAPIError"
        ("Function " ++ "update_file" ++ " failed after " ++ toString 6 ++ " attempts")
        (PyExc.exc "DriveAPIError" ("Local file not found: " ++ lp)))
      ∧ (update_file fs svc fid lp).calls = 6
      ∧ (update_file fs svc fid lp).sleeps.length = 5
      ∧ (update_file fs svc fid lp).remote = []) := by
  have hup : ∀ n : Nat, ((fun _ => uploadFileBody fs svc lp pid) n).1 =
      Except.error (PyExc.exc "DriveAPIError" ("Local file not found: " ++ lp)) := by
    intro n
    simp [uploadFileBody, hmiss]
  have hupr : ∀ n : Nat, ((fun _ => uploadFileBody fs svc lp pid) n).2 = [] := by
    intro n
    simp [uploadFileBody, hmiss]
  have hud : ∀ n : Nat, ((fun _ => updateFileBody fs svc fid lp) n).1 =
      Except.error (PyExc.exc "DriveAPIError" ("Local file not found: " ++ lp)) := by
    intro n
    simp [updateFileBody, hmiss]
  have hudr : ∀ n : Nat, ((fun _ => updateFileBody fs svc fid lp) n).2 = [] := by
    intro n
    simp [updateFileBody, hmiss]
  have h1 := retryOnTransient_always_fail defaultRetryConfig "upload_file" _
    (fun _ => PyExc.exc "DriveAPIError" ("Local file not found: " ++ lp)) hup (by decide)
  have h2 := retryOnTransient_always_fail defaultRetryConfig "update_file" _
    (fun _ => PyExc.exc "DriveAPIError" ("Local file not found: " ++ lp)) hud (by decide)
  refine ⟨⟨h1.2.1, h1.1, h1.2.2, ?_⟩, ⟨h2.2.1, h2.1, h2.2.2, ?_⟩⟩
  · unfold upload_file retryOnTransient
    exact retryGo_remote_nil _ _ _ hupr _ _ _ _ _ _
  · unfold update_file retryOnTransient
    exact retryGo_remote_nil _ _ _ hudr _ _ _ _ _ _

/-- Counterexample to C3 as stated: with a local path that does not exist,
the body of `upload_file` is executed 6 times — not exactly once — and 5
backoff sleeps happen before the failure surfaces, because the missing-file
`DriveAPIError` is raised inside the retry-wrapped body and the decorator
retries every exception. -/
theorem upload_missing_local_retried_counterexample :
    (upload_file emptyFS inertService "/missing.txt" none).calls = 6
    ∧ (upload_file emptyFS inertService "/missing.txt" none).sleeps.length = 5
    ∧ (upload_file emptyFS inertService "/missing.txt" none).result =
        Except.error (PyExc.excFrom "DriveAPIError"
          "Function upload_file failed after 6 attempts"
          (PyExc.exc "DriveAPIError" "Local file not found: /missing.txt")) :=
  ⟨by decide, by decide, by decide⟩

/-- Witness for C3 (amended): the concrete missing-path run. -/
theorem upload_missing_local_retried_witness :
    emptyFS.pathExists "/missing.txt" = false
    ∧ (((upload_file emptyFS inertService "/missing.txt" none).result =
          Except.error (PyExc.excFrom "DriveAPIError"
            ("Function " ++ "upload_file" ++ " failed after " ++ toString 6 ++ " attempts")
            (PyExc.exc "DriveAPIError" ("Local file not found: " ++ "/missing.txt")))
        ∧ (upload_file emptyFS inertService "/missing.txt" none).calls = 6
        ∧ (upload_file emptyFS inertService "/missing.txt" none).sleeps.length = 5
        ∧ (upload_file emptyFS inertService "/missing.txt" none).remote = [])
      ∧ ((update_file emptyFS inertService "f1" "/missing.txt").result =
          Except.error (PyExc.excFrom "DriveAPIError"
            ("Function " ++ "update_file" ++ " failed after " ++ toString 6 ++ " attempts")
            (PyExc.exc "DriveAPIError" ("Local file not found: " ++ "/missing.txt")))
        ∧ (update_file emptyFS inertService "f1" "/missing.txt").calls = 6
        ∧ (update_file emptyFS inertService "f1" "/missing.txt").sleeps.length = 5
        ∧ (update_file emptyFS inertService "f1" "/missing.txt").remote = [])) :=
  ⟨rfl, upload_missing_local_retried emptyFS inertService "/missing.txt" none "f1" rfl⟩

/-- C5 (amended): provided `0 ≤ initial_backoff ≤ max_backoff` and
`0 ≤ multiplier` (the defaults are 1, 60 and 2), the pre-jitter backoff
recorded for the sleep following attempt n is
`min(initial_backoff * multiplier^(n-1), max_backoff)` — the recorded
sleeps list is exactly the closed-form sequence — and the actual sleep
duration, for any jitter draw, never exceeds `max_backoff`.  (Without
`initial_backoff ≤ max_backoff` the first sleep's pre-jitter value is the
uncapped `initial_backoff`.) -/
theorem retry_backoff_closed_form {α : Type} (cfg : RetryConfig) (fname : String)
    (body : Nat → Except PyExc α × List RemoteCall) (errF : Nat → PyExc)
    (h0 : 0 ≤ cfg.initialBackoff) (hiM : cfg.initialBackoff ≤ cfg.maxBackoff)
    (hm : 0 ≤ cfg.multiplier)
    (hfail : ∀ n, (body n).1 = Except.error (errF n)) :
    (retryOnTransient cfg fname body).sleeps =
      (List.range (cfg.maxAttempts - 1)).map
        (fun n => min (cfg.initialBackoff * cfg.multiplier ^ n) cfg.maxBackoff)
    ∧ ∀ backoff jitterDraw : ℚ, sleepDuration cfg backoff jitterDraw ≤ cfg.maxBackoff := by
  constructor
  · have h : (retryOnTransient cfg fname body).sleeps =
        [] ++ (List.range (cfg.maxAttempts - 1)).map (fun t => backoffSeq cfg (0 + t)) :=
      retryGo_sleeps_always_fail cfg fname body errF hfail cfg.maxAttempts 0 0 none [] []
    have hfun : (fun t => backoffSeq cfg (0 + t)) =
        fun n => min (cfg.initialBackoff * cfg.multiplier ^ n) cfg.maxBackoff := by
      funext t
      rw [Nat.zero_add, backoffSeq_closed cfg h0 hiM hm t]
    rw [hfun] at h
    simpa using h
  · intro b j
    simp only [sleepDuration]
    exact min_le_right _ _

/-- Counterexample to C5 as stated: with `initial_backoff = 2` above
`max_backoff = 1` (and multiplier 1), the pre-jitter value recorded for the
sleep after attempt 1 is the uncapped 2, while the claimed formula
`min(initial * multiplier^0, max_backoff)` yields 1 — the code caps only
the slept duration and later backoff updates, not the initial value. -/
theorem retry_backoff_formula_fails_uncapped :
    (retryOnTransient c5cfg "op"
        (fun _ => ((Except.error boomExc, []) : Except PyExc Unit × List RemoteCall))).sleeps = [2]
    ∧ min (c5cfg.initialBackoff * c5cfg.multiplier ^ 0) c5cfg.maxBackoff = 1
    ∧ (2 : ℚ) ≠ 1 := by
  refine ⟨by decide, ?_, by norm_num⟩
  rw [show c5cfg.initialBackoff = 2 from rfl, show c5cfg.multiplier = 1 from rfl,
    show c5cfg.maxBackoff = 1 from rfl, pow_zero, mul_one]
  exact min_eq_right (by norm_num)

/-- Witness for C5 (amended): the default configuration (initial 1, cap 60,
multiplier 2) with an always-failing body — the recorded sleeps follow the
closed form. -/
theorem retry_backoff_closed_form_witness :
    (0 : ℚ) ≤ defaultRetryConfig.initialBackoff
    ∧ defaultRetryConfig.initialBackoff ≤ defaultRetryConfig.maxBackoff
    ∧ (0 : ℚ) ≤ defaultRetryConfig.multiplier
    ∧ (retryOnTransient defaultRetryConfig "op"
        (fun _ => ((Except.error boomExc, []) : Except PyExc Unit × List RemoteCall))).sleeps =
      (List.range (defaultRetryConfig.maxAttempts - 1)).map
        (fun n => min (defaultRetryConfig.initialBackoff * defaultRetryConfig.multiplier ^ n)
          defaultRetryConfig.maxBackoff) :=
  ⟨by decide, by decide, by decide,
    (retry_backoff_closed_form defaultRetryConfig "op"
      (fun _ => ((Except.error boomExc, []) : Except PyExc Unit × List RemoteCall)) (fun _ => boomExc)
      (by decide) (by decide) (by decide) (fun _ => rfl)).1⟩

end DriveManager
